import Mathlib

/-!
Verification development for the Project_Samarth data pipeline.

The repository has two fetch scripts (crop_data.py and rainfall.py), both
built around a paginated HTTP fetch loop with bounded retries, and an ETL
script (db_creator.py) that cleans the fetched CSV files and writes two
tables into a SQLite database.

The embedding below models:
  - a raw CSV cell and the pandas numeric-repair operations used by
    db_creator.py (replace of the "NR" sentinel, to_numeric with coerce
    semantics, fillna with 0);
  - process_crop_data and process_rainfall_data from db_creator.py as pure
    functions on lists of rows (floats are modelled as rationals);
  - the db_creator main as a function from the optional contents of the two
    input files and the prior database file state to the resulting file state;
  - the fetch loops of crop_data.fetch_all_data and
    rainfall.fetch_paginated_data, driven by a server model (the total
    record list, paged by offset and limit) and an error oracle giving the
    outcome of each attempt at each offset; the loops also produce a trace
    of request and sleep events;
  - the rainfall main loop over filter combinations.
-/

/-- A raw tabular cell as read from a CSV file: a numeric value, a string
value, or a missing value (NaN).  Floats are modelled as rationals. -/
inductive Cell where
  | num (q : ℚ)
  | str (s : String)
  | missing
deriving DecidableEq

/-- Whitespace test used by stripping. -/
def isSpaceChar (c : Char) : Bool := c = ' ' ∨ c = '\t' ∨ c = '\n' ∨ c = '\r'

/-- Remove leading and trailing whitespace from a character list. -/
def trimChars (cs : List Char) : List Char :=
  ((cs.dropWhile isSpaceChar).reverse.dropWhile isSpaceChar).reverse

/-- Python str.strip (and pandas Series.str.strip) on one string. -/
def strip (s : String) : String := String.mk (trimChars s.data)

/-- Numeric value of a list of decimal digit characters. -/
def digitsVal (cs : List Char) : Nat :=
  cs.foldl (fun a c => a * 10 + (c.toNat - 48)) 0

/-- Parse an optional exponent suffix ("e5", "E-3", ...) applied to an
already-parsed mantissa; the empty suffix leaves the mantissa unchanged. -/
def applyExp (m : ℚ) : List Char → Option ℚ
  | [] => some m
  | c :: cs =>
    if c = 'e' ∨ c = 'E' then
      match cs with
      | '+' :: t =>
        if t ≠ [] ∧ t.all Char.isDigit then some (m * (10 : ℚ) ^ (digitsVal t : Int)) else none
      | '-' :: t =>
        if t ≠ [] ∧ t.all Char.isDigit then some (m * (10 : ℚ) ^ (-(digitsVal t : Int))) else none
      | t =>
        if t ≠ [] ∧ t.all Char.isDigit then some (m * (10 : ℚ) ^ (digitsVal t : Int)) else none
    else none

/-- Numeric parse of one string, modelling the parser behind pandas
to_numeric on a string element: optional sign, decimal digits with an
optional fraction part, and an optional exponent; surrounding whitespace
is ignored.  Returns none when the string is not numeric. -/
def parseNum (s : String) : Option ℚ :=
  let cs0 := trimChars s.data
  let sgn : ℚ := if cs0.head? = some '-' then -1 else 1
  let cs1 := if cs0.head? = some '-' ∨ cs0.head? = some '+' then cs0.drop 1 else cs0
  let intDigits := cs1.takeWhile Char.isDigit
  let rest := cs1.dropWhile Char.isDigit
  let base : Option ℚ :=
    match rest with
    | '.' :: rest2 =>
      let fracDigits := rest2.takeWhile Char.isDigit
      let rest3 := rest2.dropWhile Char.isDigit
      if intDigits = [] ∧ fracDigits = [] then none
      else applyExp ((digitsVal (intDigits ++ fracDigits) : ℚ) / (10 : ℚ) ^ fracDigits.length) rest3
    | _ =>
      if intDigits = [] then none else applyExp (digitsVal intDigits : ℚ) rest
  base.map (fun q => sgn * q)

/-- pandas to_numeric with errors="coerce" on one cell: numbers pass
through, numeric strings are parsed, everything else becomes missing. -/
def toNumeric : Cell → Option ℚ
  | Cell.num q => some q
  | Cell.str s => parseNum s
  | Cell.missing => none

/-- Series.replace("NR", 0) on one cell: only the exact string "NR" is
replaced by the number 0. -/
def replaceNR : Cell → Cell
  | Cell.str s => if s = "NR" then Cell.num 0 else Cell.str s
  | c => c

/-- Series.fillna(0) on one coerced value. -/
def fillna0 (v : Option ℚ) : ℚ := v.getD 0

/-- Constant source url attached to every clean crop row (verbatim from
db_creator.py, including its malformed scheme). -/
def CROP_API_URL : String := "https.api.data.gov.in/resource/35be999b-0208-4354-b557-f6ca9a5355de"

/-- Constant source url attached to every clean rainfall row. -/
def RAIN_API_URL : String := "https.api.data.gov.in/resource/6c05cd1b-ed59-40c2-bc31-e314f39c6971"

/-- Constant source name attached to every clean crop row. -/
def CROP_SOURCE_NAME : String := "District-wise, season-wise crop production statistics"

/-- Constant source name attached to every clean rainfall row. -/
def RAIN_SOURCE_NAME : String := "Daily District-wise Rainfall Data (Aggregated to Annual)"

/-- A raw crop CSV row, with the raw column names of the crop resource.
The string columns are the ones db_creator.py later strips; the two
numeric columns are kept as raw cells. -/
structure RawCropRow where
  state_name : String
  district_name : String
  season : String
  crop : String
  crop_year : Int
  area_ : Cell
  production_ : Cell
deriving DecidableEq

/-- A clean crop production row (db_creator.py final_cols selection). -/
structure CropRow where
  state : String
  district : String
  year : Int
  season : String
  crop : String
  area_hectares : Option ℚ
  production_tonnes : Option ℚ
  source_name : String
  source_url : String
deriving DecidableEq

/-- Per-row part of process_crop_data: column rename, whitespace strip on
the string columns, numeric coercion of area and production, provenance
constants. -/
def cleanCropRow (r : RawCropRow) : CropRow :=
  { state := strip r.state_name
    district := strip r.district_name
    year := r.crop_year
    season := strip r.season
    crop := strip r.crop
    area_hectares := toNumeric r.area_
    production_tonnes := toNumeric r.production_
    source_name := CROP_SOURCE_NAME
    source_url := CROP_API_URL }

/-- process_crop_data from db_creator.py: clean every row, then drop the
rows whose production_tonnes is missing (dropna on that column).  Returns
the kept rows together with the reported dropped-row count
(original length minus kept length). -/
def process_crop_data (rows : List RawCropRow) : List CropRow × Nat :=
  let cleaned := rows.map cleanCropRow
  let kept := cleaned.filter (fun r => r.production_tonnes.isSome)
  (kept, cleaned.length - kept.length)

/-- A raw daily rainfall CSV row, with the raw column names of the
rainfall resource. -/
structure RawRainRow where
  State : String
  District : String
  Year : Int
  Avg_rainfall : Cell
deriving DecidableEq

/-- A cleaned (pre-aggregation) daily rainfall row. -/
structure RainRow where
  state : String
  district : String
  year : Int
  rainfall_mm : ℚ
deriving DecidableEq

/-- An aggregated annual rainfall row, as stored in the climate_rainfall
table. -/
structure AnnualRainRow where
  state : String
  district : String
  year : Int
  annual_rainfall_mm : ℚ
  source_name : String
  source_url : String
deriving DecidableEq

/-- Per-row part of process_rainfall_data before the groupby: rename,
strip of the string columns, then the three-step numeric repair of the
rainfall column (replace "NR" by 0, coerce to numeric, fill NaN with 0). -/
def cleanRainRow (r : RawRainRow) : RainRow :=
  { state := strip r.State
    district := strip r.District
    year := r.Year
    rainfall_mm := fillna0 (toNumeric (replaceNR r.Avg_rainfall)) }

/-- Grouping key of the rainfall aggregation. -/
abbrev RainKey := String × String × Int

/-- Key of a cleaned daily rainfall row. -/
def rkey (r : RainRow) : RainKey := (r.state, r.district, r.year)

/-- Key of an aggregated annual rainfall row. -/
def arkey (a : AnnualRainRow) : RainKey := (a.state, a.district, a.year)

/-- Lexicographic order on grouping keys, modelling the ascending key sort
that pandas groupby applies to the group keys. -/
def keyLe (a b : RainKey) : Prop :=
  a.1 < b.1 ∨ (a.1 = b.1 ∧ (a.2.1 < b.2.1 ∨ (a.2.1 = b.2.1 ∧ a.2.2 ≤ b.2.2)))

instance keyLe.decRel : DecidableRel keyLe := fun a b => by
  unfold keyLe
  exact inferInstance

/-- Sum of the rainfall measure over the cleaned rows of one group. -/
def groupSum (rows : List RainRow) (k : RainKey) : ℚ :=
  ((rows.filter (fun r => rkey r = k)).map RainRow.rainfall_mm).sum

/-- Output row of the rainfall aggregation for one group key. -/
def mkAnnualRow (rows : List RainRow) (k : RainKey) : AnnualRainRow :=
  { state := k.1
    district := k.2.1
    year := k.2.2
    annual_rainfall_mm := groupSum rows k
    source_name := RAIN_SOURCE_NAME
    source_url := RAIN_API_URL }

/-- process_rainfall_data from db_creator.py: clean every daily row, then
group by (state, district, year) and sum the rainfall measure, producing
one output row per distinct key (keys sorted ascending, as pandas groupby
does), then attach the provenance constants. -/
def process_rainfall_data (rows : List RawRainRow) : List AnnualRainRow :=
  let cleaned := rows.map cleanRainRow
  let keys := (cleaned.map rkey).dedup
  (keys.insertionSort keyLe).map (mkAnnualRow cleaned)

/-- The two tables of the data.gov.db SQLite file. -/
structure Database where
  agriculture_production : List CropRow
  climate_rainfall : List AnnualRainRow
deriving DecidableEq

/-- db_creator.main, as a function from the optional contents of the two
raw CSV files (none models a missing file, the only error read_csv
catches) and the prior state of the database file (none = no file) to the
resulting state of the database file.  The old file is removed and a new
one written only when both datasets cleaned successfully; otherwise the
build is skipped and the file is untouched. -/
def db_creator_main (cropFile : Option (List RawCropRow)) (rainFile : Option (List RawRainRow))
    (oldDb : Option Database) : Option Database :=
  match cropFile, rainFile with
  | some crops, some rains =>
      some { agriculture_production := (process_crop_data crops).1
             climate_rainfall := process_rainfall_data rains }
  | _, _ => oldDb

variable {α : Type} {Q : Type}

/-- Outcome of one HTTP page attempt, as classified by the two fetch
scripts.  transient covers every requests.RequestException (and SSLError)
that does not carry an HTTP 403 response: timeouts, connection errors,
wrapped SSL errors.  forbidden is a RequestException whose response has
status code 403.  unexpected is any other exception (crop_data.py catches
those in a separate except-Exception branch; rainfall.py does not catch
them at all). -/
inductive ErrKind where
  | transient
  | forbidden
  | unexpected
deriving DecidableEq

/-- Observable step of a fetch run: a page request (offset, 0-based
attempt index) or a blocking sleep of the given number of seconds. -/
inductive Event where
  | req (offset attempt : Nat)
  | sleep (secs : Nat)
deriving DecidableEq

/-- Outcome of the inner retry loop of crop_data.fetch_all_data. -/
inductive TryOutcome where
  | got            -- a request succeeded; break with the page data
  | unexpectedStop -- except Exception: return the partial result now
  | exhausted      -- the for loop completed without break (for-else)
deriving DecidableEq

/-- Inner retry loop of crop_data.fetch_all_data at one offset.  errAt
gives the outcome of each attempt (none = success).  A RequestException or
SSLError (transient or forbidden alike: crop_data.py treats an HTTP 403
like any other RequestException) sleeps 3 seconds and retries; any other
exception aborts with the partial result; fuel is the remaining number of
attempts out of max_retries = 5. -/
def cropRetry (errAt : Nat → Option ErrKind) (offset : Nat) :
    Nat → Nat → List Event × TryOutcome
  | _, 0 => ([], TryOutcome.exhausted)
  | attempt, fuel + 1 =>
    match errAt attempt with
    | none => ([Event.req offset attempt], TryOutcome.got)
    | some ErrKind.unexpected => ([Event.req offset attempt], TryOutcome.unexpectedStop)
    | some ErrKind.transient | some ErrKind.forbidden =>
      let r := cropRetry errAt offset (attempt + 1) fuel
      (Event.req offset attempt :: Event.sleep 3 :: r.1, r.2)

/-- Pagination loop of crop_data.fetch_all_data.  The server holds the
total record list db; the page at a given offset is
(db.drop offset).take limit.  err gives the outcome of each attempt at
each offset.  The loop stops on an empty page, on a short page, when the
retry budget at one offset is exhausted (returning what was accumulated),
or on an unexpected exception (likewise returning the accumulation).  The
structural fuel argument bounds the number of iterations of the
while-True loop; the wrapper below always supplies enough fuel. -/
def cropFetchGo (limit maxRetries : Nat) (db : List α) (err : Nat → Nat → Option ErrKind) :
    Nat → Nat → List α → List Event × List α
  | 0, _, acc => ([], acc)
  | fuel + 1, offset, acc =>
    let page := (db.drop offset).take limit
    let tr := cropRetry (err offset) offset 0 maxRetries
    match tr.2 with
    | TryOutcome.unexpectedStop => (tr.1, acc)
    | TryOutcome.exhausted => (tr.1, acc)
    | TryOutcome.got =>
      if page.isEmpty then (tr.1, acc)
      else if page.length < limit then (tr.1, acc ++ page)
      else
        let r := cropFetchGo limit maxRetries db err fuel (offset + limit) (acc ++ page)
        (tr.1 ++ r.1, r.2)

/-- crop_data.fetch_all_data with its constants limit = 1000 and
max_retries = 5, starting at offset 0 with an empty accumulator.  The
fuel db.length + 1 is always sufficient (each continuing iteration
consumes a full positive page). -/
def fetch_all_data (db : List α) (err : Nat → Nat → Option ErrKind) : List Event × List α :=
  cropFetchGo 1000 5 db err (db.length + 1) 0 []

/-- Outcome of the inner retry loop of rainfall.fetch_paginated_data.
The fatal constructor models the FATAL_ERROR return of the source; the
loop below never produces it (its guard is dead code, see rainRetry).
Exceptions other than RequestException are not caught and propagate
(raised). -/
inductive RainTryOutcome where
  | got
  | exhausted
  | fatal
  | raised
deriving DecidableEq

/-- Inner retry loop of rainfall.fetch_paginated_data at one offset.  On
a RequestException the source first tests
`if e.response and e.response.status_code == 403` and would return the
FATAL_ERROR sentinel; but a requests Response is falsy whenever its
status code is 400 or above (its truth value is `ok`), so for an actual
403 the first conjunct is already False and control falls through to the
sleep-and-retry path.  The fatal return is therefore dead code, and a
RequestException carrying a 403 is retried exactly like a transient
error, 3-second sleep included. -/
def rainRetry (errAt : Nat → Option ErrKind) (offset : Nat) :
    Nat → Nat → List Event × RainTryOutcome
  | _, 0 => ([], RainTryOutcome.exhausted)
  | attempt, fuel + 1 =>
    match errAt attempt with
    | none => ([Event.req offset attempt], RainTryOutcome.got)
    | some ErrKind.unexpected => ([Event.req offset attempt], RainTryOutcome.raised)
    | some ErrKind.transient | some ErrKind.forbidden =>
      let r := rainRetry errAt offset (attempt + 1) fuel
      (Event.req offset attempt :: Event.sleep 3 :: r.1, r.2)

/-- Result of rainfall.fetch_paginated_data: a normal return of the
accumulated records, the FATAL_ERROR sentinel (which carries no records
and, because of the dead guard in the retry loop, is never produced),
or an uncaught exception propagating out of the function. -/
inductive RainFetchResult (α : Type) where
  | records (rs : List α)
  | fatal
  | raised
deriving DecidableEq

/-- Pagination loop of rainfall.fetch_paginated_data.  Same page model as
the crop loop.  The fatal branch mirrors the FATAL_ERROR return of the
source but is unreachable, since rainRetry never yields the fatal
outcome.  (The source also compares the parsed json against the string
FATAL_ERROR after a successful page; that comparison is likewise dead
code with no effect.) -/
def rainFetchGo (limit maxRetries : Nat) (db : List α) (err : Nat → Nat → Option ErrKind) :
    Nat → Nat → List α → List Event × RainFetchResult α
  | 0, _, acc => ([], RainFetchResult.records acc)
  | fuel + 1, offset, acc =>
    let page := (db.drop offset).take limit
    let tr := rainRetry (err offset) offset 0 maxRetries
    match tr.2 with
    | RainTryOutcome.fatal => (tr.1, RainFetchResult.fatal)
    | RainTryOutcome.raised => (tr.1, RainFetchResult.raised)
    | RainTryOutcome.exhausted => (tr.1, RainFetchResult.records acc)
    | RainTryOutcome.got =>
      if page.isEmpty then (tr.1, RainFetchResult.records acc)
      else if page.length < limit then (tr.1, RainFetchResult.records (acc ++ page))
      else
        let r := rainFetchGo limit maxRetries db err fuel (offset + limit) (acc ++ page)
        (tr.1 ++ r.1, r.2)

/-- rainfall.fetch_paginated_data with its constants limit = 1000 and
max_retries = 5.  The filters of one query are reflected in the db and
err arguments chosen by the caller. -/
def fetch_paginated_data (db : List α) (err : Nat → Nat → Option ErrKind) :
    List Event × RainFetchResult α :=
  rainFetchGo 1000 5 db err (db.length + 1) 0 []

/-- Result of rainfall.main: the run either stops early on the
FATAL_ERROR signal (writing no file), crashes on an uncaught exception
(writing no file), writes the accumulated records to the output csv, or
finishes with no records and writes no file. -/
inductive RainMainResult (α : Type) where
  | fatalStop
  | raisedStop
  | wrote (rows : List α)
  | noFile
deriving DecidableEq

/-- Loop of rainfall.main over the year-times-state filter combinations:
each query is fetched with fetch_paginated_data; a FATAL_ERROR return
aborts the whole run before any file is written; otherwise the records
are appended and the loop continues.  After the loop the file is written
only when at least one record was accumulated. -/
def rainMainLoop (fetchQ : Q → RainFetchResult α) : List Q → List α → RainMainResult α
  | [], acc => if acc.isEmpty then RainMainResult.noFile else RainMainResult.wrote acc
  | q :: qs, acc =>
    match fetchQ q with
    | RainFetchResult.fatal => RainMainResult.fatalStop
    | RainFetchResult.raised => RainMainResult.raisedStop
    | RainFetchResult.records rs => rainMainLoop fetchQ qs (acc ++ rs)

/-- rainfall.main over an explicit list of filter combinations, a server
model giving each query its record set, and an error oracle per query. -/
def rain_main (queries : List Q) (server : Q → List α)
    (err : Q → Nat → Nat → Option ErrKind) : RainMainResult α :=
  rainMainLoop (fun q => (fetch_paginated_data (server q) (err q)).2) queries []

set_option maxRecDepth 8000

example : parseNum "100" = some 100 := of_decide_eq_true (by with_unfolding_all rfl)
example : parseNum "NA" = none := by decide
example : parseNum "123.4" = some (617 / 5) := of_decide_eq_true (by with_unfolding_all rfl)
example : parseNum " -2.5e1" = some (-25) := of_decide_eq_true (by with_unfolding_all rfl)

/-- The two raw rainfall rows of the spec example: same key, values
"100" and the sentinel "NR". -/
def goaRows : List RawRainRow :=
  [{ State := "Goa", District := "Panaji", Year := 2019, Avg_rainfall := Cell.str "100" },
   { State := "Goa", District := "Panaji", Year := 2019, Avg_rainfall := Cell.str "NR" }]

/-- Expected aggregated output row for the Goa example. -/
def goaOutRow : AnnualRainRow :=
  { state := "Goa", district := "Panaji", year := 2019, annual_rainfall_mm := 100,
    source_name := RAIN_SOURCE_NAME, source_url := RAIN_API_URL }

/-- Raw crop row of the spec example, with a padded state name and a
parseable production value. -/
def punjabRow1 : RawCropRow :=
  { state_name := " Punjab ", district_name := "Ludhiana", season := "Kharif", crop := "Wheat",
    crop_year := 2005, area_ := Cell.num 10, production_ := Cell.str "123.4" }

/-- Raw crop row with a missing production value (dropped at clean time). -/
def punjabRow2 : RawCropRow :=
  { state_name := "Haryana", district_name := "Karnal", season := "Rabi", crop := "Rice",
    crop_year := 2006, area_ := Cell.num 5, production_ := Cell.missing }

/-- Two-row raw crop table of the spec example. -/
def punjabRows : List RawCropRow := [punjabRow1, punjabRow2]

lemma length_filter_isSome_add {γ : Type} (l : List γ) (f : γ → Option ℚ) :
    (l.filter (fun x => (f x).isSome)).length +
      (l.filter (fun x => (f x).isNone)).length = l.length := by
  induction l with
  | nil => rfl
  | cons a t ih => cases h : f a <;> simp [List.filter_cons, h] <;> omega

lemma countP_eq_one_of_nodup_mem {β : Type} [DecidableEq β] {l : List β} (hnd : l.Nodup)
    {k : β} (hk : k ∈ l) : l.countP (fun x => decide (x = k)) = 1 := by
  induction l with
  | nil => cases hk
  | cons a t ih =>
    rw [List.countP_cons]
    rcases List.mem_cons.mp hk with heq | hk2
    · subst heq
      have hnotin : k ∉ t := (List.nodup_cons.mp hnd).1
      have h0 : t.countP (fun x => decide (x = k)) = 0 :=
        List.countP_eq_zero.mpr (fun b hb => by
          simp only [decide_eq_true_eq]
          rintro rfl
          exact hnotin hb)
      simp [h0]
    · have ha : a ≠ k := by
        rintro rfl
        exact (List.nodup_cons.mp hnd).1 hk2
      have ht := ih (List.nodup_cons.mp hnd).2 hk2
      simp [ht, ha]

/-- C2: no output production row has a missing production_tonnes; the
output row count equals the input row count minus the reported
dropped-row count; and exactly the rows whose production value fails
numeric parsing are dropped (the output is the cleaned image of the rows
whose production parses). -/
theorem C2_production_row_drop (rows : List RawCropRow) :
    (∀ r ∈ (process_crop_data rows).1, r.production_tonnes.isSome) ∧
    (process_crop_data rows).1.length = rows.length - (process_crop_data rows).2 ∧
    (process_crop_data rows).2 =
      (rows.filter (fun r => (toNumeric r.production_).isNone)).length ∧
    (process_crop_data rows).1 =
      (rows.filter (fun r => (toNumeric r.production_).isSome)).map cleanCropRow := by
  have hfm : (rows.map cleanCropRow).filter (fun r => r.production_tonnes.isSome) =
      (rows.filter (fun r => (toNumeric r.production_).isSome)).map cleanCropRow := by
    rw [List.filter_map]
    rfl
  refine ⟨?_, ?_, ?_, ?_⟩
  · intro r hr
    simp only [process_crop_data] at hr
    exact (List.mem_filter.mp hr).2
  · simp only [process_crop_data]
    have h1 := List.length_filter_le (fun r : CropRow => r.production_tonnes.isSome)
      (rows.map cleanCropRow)
    simp only [List.length_map] at h1 ⊢
    omega
  · have hsplit := length_filter_isSome_add rows (fun r => toNumeric r.production_)
    simp only [process_crop_data, hfm, List.length_map]
    omega
  · simp only [process_crop_data]
    exact hfm

/-- Closed witness for C2 on the spec example: the surviving row of the
two-row example table has a present production value. -/
theorem C2_production_row_drop_witness :
    (cleanCropRow punjabRow1).production_tonnes.isSome :=
  (C2_production_row_drop punjabRows).1 (cleanCropRow punjabRow1)
    (of_decide_eq_true (by with_unfolding_all rfl))

/-- C1: the rainfall output has exactly one row per distinct
(state, district, year) key of the cleaned input, and each output row
carries the exact sum of the repaired rainfall values of the matching
cleaned input rows. -/
theorem C1_rainfall_one_row_per_key (rows : List RawRainRow) :
    (∀ k : RainKey,
        (process_rainfall_data rows).countP (fun a => decide (arkey a = k)) =
          if k ∈ (rows.map cleanRainRow).map rkey then 1 else 0) ∧
    (∀ a ∈ process_rainfall_data rows,
        a.annual_rainfall_mm =
          (((rows.map cleanRainRow).filter (fun r => decide (rkey r = arkey a))).map
              RainRow.rainfall_mm).sum) := by
  have hperm : List.Perm (((rows.map cleanRainRow).map rkey).dedup.insertionSort keyLe)
      (((rows.map cleanRainRow).map rkey).dedup) := List.perm_insertionSort _ _
  have hnd : (((rows.map cleanRainRow).map rkey).dedup.insertionSort keyLe).Nodup :=
    hperm.nodup_iff.mpr (List.nodup_dedup _)
  have hmem : ∀ k : RainKey,
      (k ∈ ((rows.map cleanRainRow).map rkey).dedup.insertionSort keyLe) ↔
        k ∈ (rows.map cleanRainRow).map rkey := fun k =>
    hperm.mem_iff.trans List.mem_dedup
  constructor
  · intro k
    simp only [process_rainfall_data]
    rw [List.countP_map]
    by_cases hk : k ∈ (rows.map cleanRainRow).map rkey
    · rw [if_pos hk]
      exact countP_eq_one_of_nodup_mem hnd ((hmem k).mpr hk)
    · rw [if_neg hk]
      apply List.countP_eq_zero.mpr
      intro b hb
      simp only [Function.comp, decide_eq_true_eq]
      rintro rfl
      exact hk ((hmem (arkey (mkAnnualRow (rows.map cleanRainRow) b))).mp
        (by simpa using hb))

  · intro a ha
    simp only [process_rainfall_data] at ha
    rcases List.mem_map.mp ha with ⟨k2, hk2, rfl⟩
    simp [mkAnnualRow, groupSum, arkey]

/-- Closed witness for C1 on the Goa example: the aggregated output row
carries the sum of the repaired values of its group. -/
theorem C1_rainfall_one_row_per_key_witness :
    goaOutRow.annual_rainfall_mm =
      (((goaRows.map cleanRainRow).filter (fun r => decide (rkey r = arkey goaOutRow))).map
          RainRow.rainfall_mm).sum :=
  (C1_rainfall_one_row_per_key goaRows).2 goaOutRow
    (of_decide_eq_true (by with_unfolding_all rfl))

/-- C8: the sentinel "NR" maps to zero; every other non-numeric value is
coerced to the missing marker; the rainfall pipeline fills missing with
zero while the production pipeline keeps the missing marker (no
zero-fill); and on the Goa example the "NR" value contributes 0 to the
annual group sum. -/
theorem C8_numeric_repair :
    replaceNR (Cell.str "NR") = Cell.num 0 ∧
    fillna0 (toNumeric (replaceNR (Cell.str "NR"))) = 0 ∧
    (∀ s : String, s ≠ "NR" → parseNum s = none →
        toNumeric (replaceNR (Cell.str s)) = none) ∧
    (∀ r : RawRainRow, toNumeric (replaceNR r.Avg_rainfall) = none →
        (cleanRainRow r).rainfall_mm = 0) ∧
    (∀ r : RawCropRow, (cleanCropRow r).production_tonnes = toNumeric r.production_) ∧
    (∀ r : RawCropRow, toNumeric r.production_ = none →
        (cleanCropRow r).production_tonnes = none) ∧
    process_rainfall_data goaRows = [goaOutRow] := by
  refine ⟨rfl, rfl, ?_, ?_, fun r => rfl, ?_, ?_⟩
  · intro s hne hp
    simp [replaceNR, hne, toNumeric, hp]
  · intro r h
    simp [cleanRainRow, h, fillna0]
  · intro r h
    simp [cleanCropRow, h]
  · exact of_decide_eq_true (by with_unfolding_all rfl)

/-- Closed witness for C8: the non-sentinel string "NA" is coerced to the
missing marker, and a missing raw rainfall value is filled with zero. -/
theorem C8_numeric_repair_witness :
    toNumeric (replaceNR (Cell.str "NA")) = none ∧
    (cleanRainRow ⟨"X", "Y", 2000, Cell.missing⟩).rainfall_mm = 0 :=
  ⟨C8_numeric_repair.2.2.1 "NA" (by decide) (by decide),
   C8_numeric_repair.2.2.2.1 _ rfl⟩

/-- C9: the Transformer is a pure function of its input; two runs on
equal raw tables produce equal output tables for both datasets. -/
theorem C9_transformer_deterministic (xs ys : List RawCropRow) (us vs : List RawRainRow)
    (hc : xs = ys) (hr : us = vs) :
    process_crop_data xs = process_crop_data ys ∧
    process_rainfall_data us = process_rainfall_data vs := by
  subst hc
  subst hr
  exact ⟨rfl, rfl⟩

/-- Closed witness for C9 at a concrete input. -/
theorem C9_transformer_deterministic_witness :
    process_crop_data punjabRows = process_crop_data punjabRows ∧
    process_rainfall_data goaRows = process_rainfall_data goaRows :=
  C9_transformer_deterministic punjabRows punjabRows goaRows goaRows rfl rfl

/-- C4: when either dataset fails to produce clean output (its input file
is missing) the database file is left untouched; only when both datasets
clean successfully is the file replaced by the freshly built database. -/
theorem C4_all_or_nothing (cropFile : Option (List RawCropRow))
    (rainFile : Option (List RawRainRow)) (oldDb : Option Database) :
    (cropFile = none ∨ rainFile = none →
        db_creator_main cropFile rainFile oldDb = oldDb) ∧
    (∀ crops rains, cropFile = some crops → rainFile = some rains →
        db_creator_main cropFile rainFile oldDb =
          some { agriculture_production := (process_crop_data crops).1,
                 climate_rainfall := process_rainfall_data rains }) := by
  cases cropFile <;> cases rainFile <;> simp [db_creator_main]

/-- Closed witness for C4: a missing crop file leaves the prior database
file in place, and two present files replace it. -/
theorem C4_all_or_nothing_witness :
    db_creator_main none (some goaRows)
        (some { agriculture_production := [], climate_rainfall := [] }) =
      some { agriculture_production := [], climate_rainfall := [] } ∧
    db_creator_main (some []) (some [])
        (some { agriculture_production := [], climate_rainfall := [] }) =
      some { agriculture_production := (process_crop_data []).1,
             climate_rainfall := process_rainfall_data [] } :=
  ⟨(C4_all_or_nothing none (some goaRows) _).1 (Or.inl rfl),
   (C4_all_or_nothing (some []) (some []) _).2 [] [] rfl rfl⟩

/-- Request marker, for counting the page requests of a trace. -/
def isReq : Event → Bool
  | Event.req _ _ => true
  | Event.sleep _ => false

/-- Offset of a request event (none for sleeps). -/
def evOffset : Event → Option Nat
  | Event.req o _ => some o
  | Event.sleep _ => none

lemma cropRetry_ok (errAt : Nat → Option ErrKind) (offset m : Nat) (h : errAt 0 = none) :
    cropRetry errAt offset 0 (m + 1) = ([Event.req offset 0], TryOutcome.got) := by
  simp [cropRetry, h]

lemma cropRetry_five_transient (errAt : Nat → Option ErrKind) (offset : Nat)
    (h : ∀ a, a < 5 → errAt a = some ErrKind.transient) :
    cropRetry errAt offset 0 5 =
      ([Event.req offset 0, Event.sleep 3, Event.req offset 1, Event.sleep 3,
        Event.req offset 2, Event.sleep 3, Event.req offset 3, Event.sleep 3,
        Event.req offset 4, Event.sleep 3], TryOutcome.exhausted) := by
  simp [cropRetry, h 0 (by omega), h 1 (by omega), h 2 (by omega), h 3 (by omega),
    h 4 (by omega)]

lemma rainRetry_five_transient (errAt : Nat → Option ErrKind) (offset : Nat)
    (h : ∀ a, a < 5 → errAt a = some ErrKind.transient) :
    rainRetry errAt offset 0 5 =
      ([Event.req offset 0, Event.sleep 3, Event.req offset 1, Event.sleep 3,
        Event.req offset 2, Event.sleep 3, Event.req offset 3, Event.sleep 3,
        Event.req offset 4, Event.sleep 3], RainTryOutcome.exhausted) := by
  simp [rainRetry, h 0 (by omega), h 1 (by omega), h 2 (by omega), h 3 (by omega),
    h 4 (by omega)]

/-- The fatal outcome of the rainfall retry loop is dead code: the 403
test of the source never passes (a requests response with status 400 or
above is falsy), so no attempt sequence produces it. -/
lemma rainRetry_no_fatal (errAt : Nat → Option ErrKind) (offset : Nat) :
    ∀ (attempt fuel : Nat), (rainRetry errAt offset attempt fuel).2 ≠ RainTryOutcome.fatal := by
  intro attempt fuel
  induction fuel generalizing attempt with
  | zero => simp [rainRetry]
  | succ f ih =>
    cases herr : errAt attempt with
    | none => simp [rainRetry, herr]
    | some k =>
      cases k with
      | transient => simpa [rainRetry, herr] using ih (attempt + 1)
      | forbidden => simpa [rainRetry, herr] using ih (attempt + 1)
      | unexpected => simp [rainRetry, herr]

/-- C3: contrary to the claim (and to the source comment that calls a 403
fatal), neither fetcher aborts on HTTP 403.  The crop fetcher catches it
together with the transient errors; the rainfall fetcher tests
`e.response and e.response.status_code == 403`, and a requests response
with status 400 or above is falsy, so the test never passes and the
FATAL_ERROR return is dead code.  At the failing input (every attempt at
offset 0 answered with 403) both fetchers retry through all 5 attempts
with 3-second sleeps and return a plain partial result with zero fatal
signalling; and no run of the rainfall retry loop can produce the fatal
outcome at all. -/
theorem C3_403_retried_like_transient :
    fetch_all_data ([] : List Nat) (fun _ _ => some ErrKind.forbidden) =
      ([Event.req 0 0, Event.sleep 3, Event.req 0 1, Event.sleep 3, Event.req 0 2, Event.sleep 3,
        Event.req 0 3, Event.sleep 3, Event.req 0 4, Event.sleep 3], []) ∧
    fetch_paginated_data ([] : List Nat) (fun _ _ => some ErrKind.forbidden) =
      ([Event.req 0 0, Event.sleep 3, Event.req 0 1, Event.sleep 3, Event.req 0 2, Event.sleep 3,
        Event.req 0 3, Event.sleep 3, Event.req 0 4, Event.sleep 3],
        RainFetchResult.records []) ∧
    (∀ (errAt : Nat → Option ErrKind) (offset attempt fuel : Nat),
        (rainRetry errAt offset attempt fuel).2 = RainTryOutcome.got ∨
        (rainRetry errAt offset attempt fuel).2 = RainTryOutcome.exhausted ∨
        (rainRetry errAt offset attempt fuel).2 = RainTryOutcome.raised) := by
  refine ⟨by decide, by decide, ?_⟩
  intro errAt offset attempt fuel
  rcases h : (rainRetry errAt offset attempt fuel).2 with _ | _ | _ | _
  · exact Or.inl rfl
  · exact Or.inr (Or.inl rfl)
  · exact absurd h (rainRetry_no_fatal errAt offset attempt fuel)
  · exact Or.inr (Or.inr rfl)

/-- C5: in both fetchers a page whose attempts all fail with transient
transport errors is retried up to the budget of 5 attempts with a fixed
3-second sleep after each failure, and when the budget is exhausted the
loop stops and returns the records accumulated so far as a plain partial
result (not an exception and not a fatal signal). -/
theorem C5_transient_retry_exhausted :
    (∀ (α : Type) (db : List α) (err : Nat → Nat → Option ErrKind) (f offset : Nat)
        (acc : List α),
        (∀ a, a < 5 → err offset a = some ErrKind.transient) →
        cropFetchGo 1000 5 db err (f + 1) offset acc =
          ([Event.req offset 0, Event.sleep 3, Event.req offset 1, Event.sleep 3,
            Event.req offset 2, Event.sleep 3, Event.req offset 3, Event.sleep 3,
            Event.req offset 4, Event.sleep 3], acc)) ∧
    (∀ (α : Type) (db : List α) (err : Nat → Nat → Option ErrKind) (f offset : Nat)
        (acc : List α),
        (∀ a, a < 5 → err offset a = some ErrKind.transient) →
        rainFetchGo 1000 5 db err (f + 1) offset acc =
          ([Event.req offset 0, Event.sleep 3, Event.req offset 1, Event.sleep 3,
            Event.req offset 2, Event.sleep 3, Event.req offset 3, Event.sleep 3,
            Event.req offset 4, Event.sleep 3], RainFetchResult.records acc)) := by
  constructor
  · intro α db err f offset acc h
    have h5 := cropRetry_five_transient (err offset) offset h
    simp [cropFetchGo, h5]
  · intro α db err f offset acc h
    have h5 := rainRetry_five_transient (err offset) offset h
    simp [rainFetchGo, h5]

/-- Closed witness for C5 at a concrete oracle that always times out:
both fetch loops issue 5 attempts with 3-second sleeps and return the
previously accumulated records. -/
theorem C5_transient_retry_exhausted_witness :
    cropFetchGo 1000 5 ([1, 2, 3] : List Nat) (fun _ _ => some ErrKind.transient) 3 7 [9] =
      ([Event.req 7 0, Event.sleep 3, Event.req 7 1, Event.sleep 3, Event.req 7 2, Event.sleep 3,
        Event.req 7 3, Event.sleep 3, Event.req 7 4, Event.sleep 3], [9]) ∧
    rainFetchGo 1000 5 ([1, 2, 3] : List Nat) (fun _ _ => some ErrKind.transient) 3 7 [9] =
      ([Event.req 7 0, Event.sleep 3, Event.req 7 1, Event.sleep 3, Event.req 7 2, Event.sleep 3,
        Event.req 7 3, Event.sleep 3, Event.req 7 4, Event.sleep 3],
        RainFetchResult.records [9]) :=
  ⟨C5_transient_retry_exhausted.1 Nat [1, 2, 3] (fun _ _ => some ErrKind.transient) 2 7 [9]
      (fun _ _ => rfl),
   C5_transient_retry_exhausted.2 Nat [1, 2, 3] (fun _ _ => some ErrKind.transient) 2 7 [9]
      (fun _ _ => rfl)⟩

lemma range_one_eq : List.range 1 = [0] := rfl

/-- Characterization of the crop pagination loop when no attempt fails:
starting at any offset with sufficient fuel, it issues one request per
visited offset (offset, offset + L, ...), visits exactly
(db.length - offset) / L + 1 offsets, and returns the accumulator
extended with every record from offset on. -/
lemma cropFetchGo_no_err {α : Type} (L m : Nat) (hL : 0 < L) (db : List α)
    (err : Nat → Nat → Option ErrKind) (herr : ∀ o a, err o a = none) :
    ∀ (fuel offset : Nat) (acc : List α), (db.length - offset) / L + 1 ≤ fuel →
      cropFetchGo L (m + 1) db err fuel offset acc =
        ((List.range ((db.length - offset) / L + 1)).map (fun i => Event.req (offset + L * i) 0),
          acc ++ db.drop offset) := by
  intro fuel
  induction fuel with
  | zero => intro offset acc h; exact (Nat.not_succ_le_zero _ h).elim
  | succ f ih =>
    intro offset acc h
    have hretry := cropRetry_ok (err offset) offset m (herr offset 0)
    have hlen : (db.drop offset).length = db.length - offset := by simp
    rcases Nat.lt_or_ge (db.length - offset) L with hshort | hlong
    · have hdiv0 : (db.length - offset) / L = 0 := Nat.div_eq_of_lt hshort
      have hpage : (db.drop offset).take L = db.drop offset :=
        List.take_of_length_le (by omega)
      simp only [cropFetchGo, hretry, hpage]
      by_cases hnil : (db.drop offset).isEmpty
      · have hdropnil : db.drop offset = [] := List.isEmpty_iff.mp hnil
        rw [if_pos hnil]
        simp [hdiv0, hdropnil, range_one_eq]
      · rw [if_neg hnil, if_pos (by omega)]
        simp [hdiv0, range_one_eq]
    · have hpagelen : ((db.drop offset).take L).length = L := by
        simp only [List.length_take, hlen]
        omega
      have hne : ¬(((db.drop offset).take L).isEmpty = true) := by
        intro hc
        have := List.isEmpty_iff.mp hc
        rw [this] at hpagelen
        simp at hpagelen
        omega
      have hdiv : (db.length - offset) / L = (db.length - (offset + L)) / L + 1 := by
        rw [Nat.div_eq, if_pos ⟨hL, hlong⟩]
        have hsub : db.length - offset - L = db.length - (offset + L) := by omega
        rw [hsub]
      have hbound : (db.length - (offset + L)) / L + 1 ≤ f := by
        rw [hdiv] at h
        omega
      have hih := ih (offset + L) (acc ++ (db.drop offset).take L) hbound
      simp only [cropFetchGo, hretry]
      rw [if_neg hne, if_neg (by rw [hpagelen]; exact lt_irrefl L), hih, hdiv]
      refine congrArg₂ Prod.mk ?_ ?_
      · conv_rhs => rw [List.range_succ_eq_map, List.map_cons, List.map_map]
        rw [List.singleton_append]
        refine congrArg₂ List.cons (by simp) ?_
        apply List.map_congr_left
        intro i _
        simp only [Function.comp_apply, Nat.succ_eq_add_one]
        have harith : offset + L * (i + 1) = offset + L + L * i := by ring
        rw [harith]
      · rw [List.append_assoc]
        refine congrArg (acc ++ ·) ?_
        rw [show db.drop (offset + L) = (db.drop offset).drop L from
          (List.drop_drop L offset db).symm]
        exact List.take_append_drop L (db.drop offset)

/-- The lengths of the successive pages of size L cut from a list of
length N sum to N (there are N / L + 1 pages, the last empty or short). -/
lemma sum_page_lengths (L : Nat) (hL : 0 < L) :
    ∀ N : Nat, ((List.range (N / L + 1)).map (fun i => min L (N - L * i))).sum = N := by
  intro N
  induction N using Nat.strong_induction_on with
  | _ N ih =>
    rcases Nat.lt_or_ge N L with hlt | hge
    · have h0 : N / L = 0 := Nat.div_eq_of_lt hlt
      rw [h0]
      simp only [Nat.zero_add, range_one_eq, List.map_cons, List.map_nil, List.sum_cons,
        List.sum_nil, Nat.mul_zero, Nat.sub_zero, Nat.add_zero]
      exact min_eq_right (Nat.le_of_lt hlt)
    · have hdiv : N / L = (N - L) / L + 1 := by
        rw [Nat.div_eq, if_pos ⟨hL, hge⟩]
      have ihNL := ih (N - L) (by omega)
      rw [hdiv, List.range_succ_eq_map, List.map_cons, List.map_map, List.sum_cons]
      have htail : (List.range ((N - L) / L + 1)).map
            ((fun i => min L (N - L * i)) ∘ Nat.succ) =
          (List.range ((N - L) / L + 1)).map (fun i => min L (N - L - L * i)) := by
        apply List.map_congr_left
        intro i _
        simp only [Function.comp_apply, Nat.succ_eq_add_one]
        have harith : L * (i + 1) = L + L * i := by ring
        rw [harith, Nat.sub_sub]
      rw [htail, ihNL]
      simp only [Nat.mul_zero, Nat.sub_zero]
      rw [min_eq_left hge]
      omega

lemma countP_isReq_map_req (l : List Nat) (g : Nat → Nat) :
    (l.map (fun i => Event.req (g i) 0)).countP isReq = l.length := by
  induction l with
  | nil => rfl
  | cons a t ih => simp [List.countP_cons, isReq, ih]

lemma countP_isReq_range (k offset L : Nat) :
    ((List.range k).map (fun i => Event.req (offset + L * i) 0)).countP isReq = k := by
  rw [countP_isReq_map_req (List.range k) (fun i => offset + L * i), List.length_range]

/-- C6: with no transport errors the pagination loop stops by itself: a
short (or empty) page ends it after exactly one request at that offset;
a full run from offset 0 issues exactly db.length / L + 1 page requests,
which never exceeds ceil(db.length / L) + 1; and with the fetch_all_data
constants the request count is db.length / 1000 + 1. -/
theorem C6_pagination_terminates :
    (∀ (α : Type) (db : List α) (err : Nat → Nat → Option ErrKind) (L m fuel : Nat),
        0 < L → (∀ o a, err o a = none) → db.length / L + 1 ≤ fuel →
        (cropFetchGo L (m + 1) db err fuel 0 []).1.countP isReq = db.length / L + 1 ∧
          db.length / L + 1 ≤ (db.length + L - 1) / L + 1) ∧
    (∀ (α : Type) (db : List α) (err : Nat → Nat → Option ErrKind) (L m f2 offset : Nat)
        (acc : List α),
        0 < L → (∀ o a, err o a = none) → 0 < f2 → ((db.drop offset).take L).length < L →
        (cropFetchGo L (m + 1) db err f2 offset acc).1.countP isReq = 1) ∧
    (∀ (α : Type) (db : List α) (err : Nat → Nat → Option ErrKind),
        (∀ o a, err o a = none) →
        (fetch_all_data db err).1.countP isReq = db.length / 1000 + 1) := by
  refine ⟨?_, ?_, ?_⟩
  · intro α db err L m fuel hL herr hfuel
    constructor
    · rw [cropFetchGo_no_err L m hL db err herr fuel 0 [] (by simpa using hfuel)]
      simp only [Nat.sub_zero]
      exact countP_isReq_range (db.length / L + 1) 0 L
    · have h2 : db.length / L ≤ (db.length + L - 1) / L := Nat.div_le_div_right (by omega)
      omega
  · intro α db err L m f2 offset acc hL herr hf2 hshort
    have hlt : db.length - offset < L := by
      simp only [List.length_take, List.length_drop] at hshort
      omega
    have hdiv0 : (db.length - offset) / L = 0 := Nat.div_eq_of_lt hlt
    obtain ⟨f3, rfl⟩ : ∃ f3, f2 = f3 + 1 := ⟨f2 - 1, by omega⟩
    rw [cropFetchGo_no_err L m hL db err herr (f3 + 1) offset acc (by omega)]
    rw [hdiv0]
    simp [range_one_eq, isReq]
  · intro α db err herr
    have hfuelOK : (db.length - 0) / 1000 + 1 ≤ db.length + 1 := by
      have := Nat.div_le_self db.length 1000
      simp only [Nat.sub_zero]
      omega
    have h := cropFetchGo_no_err 1000 4 (by norm_num) db err herr (db.length + 1) 0 [] hfuelOK
    rw [show (4 : Nat) + 1 = 5 from rfl] at h
    show (cropFetchGo 1000 5 db err (db.length + 1) 0 []).1.countP isReq = db.length / 1000 + 1
    rw [h]
    simp only [Nat.sub_zero]
    exact countP_isReq_range (db.length / 1000 + 1) 0 1000

/-- Closed witness for C6 at a three-record server with no errors: one
page request suffices, through the wrapper as well. -/
theorem C6_pagination_terminates_witness :
    (cropFetchGo 1000 5 ([10, 20, 30] : List Nat) (fun _ _ => none) 4 0 []).1.countP isReq = 1 ∧
    (fetch_all_data ([10, 20, 30] : List Nat) (fun _ _ => none)).1.countP isReq = 1 := by
  constructor
  · have h := (C6_pagination_terminates.1 Nat [10, 20, 30] (fun _ _ => none) 1000 4 4
      (by norm_num) (fun _ _ => rfl) (by decide)).1
    simpa using h
  · have h := C6_pagination_terminates.2.2 Nat [10, 20, 30] (fun _ _ => none) (fun _ _ => rfl)
    simpa using h

/-- C7: with no transport errors the fetch returns the complete record
set: the result equals the server list, the requested offsets are exactly
0, L, 2L, ... (strictly increasing, so no offset is processed twice), the
returned length equals the sum of the per-page record counts, and with
pages of sizes 1000, 1000, 400 the loop issues exactly 3 requests and
returns 2400 records. -/
theorem C7_pagination_complete :
    (∀ (α : Type) (db : List α) (err : Nat → Nat → Option ErrKind) (L m fuel : Nat),
        0 < L → (∀ o a, err o a = none) → db.length / L + 1 ≤ fuel →
        (cropFetchGo L (m + 1) db err fuel 0 []).2 = db ∧
        (cropFetchGo L (m + 1) db err fuel 0 []).1.filterMap evOffset =
          (List.range (db.length / L + 1)).map (fun i => L * i) ∧
        ((cropFetchGo L (m + 1) db err fuel 0 []).1.filterMap evOffset).Pairwise (· < ·) ∧
        (((cropFetchGo L (m + 1) db err fuel 0 []).1.filterMap evOffset).map
            (fun o => ((db.drop o).take L).length)).sum =
          (cropFetchGo L (m + 1) db err fuel 0 []).2.length) ∧
    (fetch_all_data (List.range 2400) (fun _ _ => none)).1.countP isReq = 3 ∧
    (fetch_all_data (List.range 2400) (fun _ _ => none)).2.length = 2400 := by
  have hoffsets : ∀ (L k : Nat),
      ((List.range k).map (fun i => Event.req (0 + L * i) 0)).filterMap evOffset =
        (List.range k).map (fun i => L * i) := by
    intro L k
    rw [List.filterMap_map]
    have hcomp : (evOffset ∘ fun i => Event.req (0 + L * i) 0) = some ∘ fun i => L * i := by
      funext i
      simp [evOffset, Function.comp]
    rw [hcomp, List.filterMap_eq_map]
  refine ⟨?_, ?_, ?_⟩
  · intro α db err L m fuel hL herr hfuel
    have hrw := cropFetchGo_no_err L m hL db err herr fuel 0 [] (by simpa using hfuel)
    refine ⟨?_, ?_, ?_, ?_⟩
    · rw [hrw]
      simp
    · rw [hrw]
      simp only [Nat.sub_zero]
      exact hoffsets L (db.length / L + 1)
    · rw [hrw]
      simp only [Nat.sub_zero]
      rw [hoffsets L (db.length / L + 1)]
      exact (List.pairwise_lt_range _).map _
        (fun a b hab => mul_lt_mul_of_pos_left hab hL)
    · rw [hrw]
      simp only [Nat.sub_zero]
      rw [hoffsets L (db.length / L + 1), List.map_map]
      have hpt : ((fun o => ((db.drop o).take L).length) ∘ fun i => L * i) =
          fun i => min L (db.length - L * i) := by
        funext i
        simp [List.length_take, List.length_drop, Function.comp]
      rw [hpt, sum_page_lengths L hL db.length]
      simp
  · have hfuelOK : ((List.range 2400).length - 0) / 1000 + 1 ≤ (List.range 2400).length + 1 := by
      simp [List.length_range]
    have h := cropFetchGo_no_err 1000 4 (by norm_num) (List.range 2400) (fun _ _ => none)
        (fun _ _ => rfl) ((List.range 2400).length + 1) 0 [] hfuelOK
    rw [show (4 : Nat) + 1 = 5 from rfl] at h
    show (cropFetchGo 1000 5 (List.range 2400) (fun _ _ => none)
        ((List.range 2400).length + 1) 0 []).1.countP isReq = 3
    rw [h]
    simp only [Nat.sub_zero, List.length_range]
    rw [countP_isReq_range]
  · have hfuelOK : ((List.range 2400).length - 0) / 1000 + 1 ≤ (List.range 2400).length + 1 := by
      simp [List.length_range]
    have h := cropFetchGo_no_err 1000 4 (by norm_num) (List.range 2400) (fun _ _ => none)
        (fun _ _ => rfl) ((List.range 2400).length + 1) 0 [] hfuelOK
    rw [show (4 : Nat) + 1 = 5 from rfl] at h
    show (cropFetchGo 1000 5 (List.range 2400) (fun _ _ => none)
        ((List.range 2400).length + 1) 0 []).2.length = 2400
    rw [h]
    simp [List.length_range]

/-- Closed witness for C7: a three-record error-free fetch returns the
full record list. -/
theorem C7_pagination_complete_witness :
    (cropFetchGo 1000 5 ([10, 20, 30] : List Nat) (fun _ _ => none) 4 0 []).2 =
      [10, 20, 30] := by
  have h := (C7_pagination_complete.1 Nat [10, 20, 30] (fun _ _ => none) 1000 4 4
      (by norm_num) (fun _ _ => rfl) (by decide)).1
  simpa using h

/-- The fatal result of fetch_paginated_data is unreachable: every run
of the pagination loop returns a record list or propagates an
exception. -/
lemma rainFetchGo_no_fatal (db : List α) (err : Nat → Nat → Option ErrKind) :
    ∀ (fuel offset : Nat) (acc : List α),
      (rainFetchGo 1000 5 db err fuel offset acc).2 ≠ RainFetchResult.fatal := by
  intro fuel
  induction fuel with
  | zero => intro offset acc; simp [rainFetchGo]
  | succ f ih =>
    intro offset acc
    rcases htr : (rainRetry (err offset) offset 0 5).2 with _ | _ | _ | _
    · simp only [rainFetchGo, htr]
      by_cases h1 : ((db.drop offset).take 1000).isEmpty = true
      · rw [if_pos h1]
        simp
      · rw [if_neg h1]
        by_cases h2 : ((db.drop offset).take 1000).length < 1000
        · rw [if_pos h2]
          simp
        · rw [if_neg h2]
          exact ih (offset + 1000) (acc ++ (db.drop offset).take 1000)
    · simp [rainFetchGo, htr]
    · exact absurd htr (rainRetry_no_fatal (err offset) offset 0 5)
    · simp [rainFetchGo, htr]

/-- rainfall.main can never stop with the fatal signal: the dead 403
guard means every query fetch yields a record list or raises. -/
lemma rain_main_no_fatalStop {α Q : Type} (queries : List Q) (server : Q → List α)
    (err : Q → Nat → Nat → Option ErrKind) :
    rain_main queries server err ≠ RainMainResult.fatalStop := by
  have hloop : ∀ (qs : List Q) (acc : List α),
      rainMainLoop (fun q => (fetch_paginated_data (server q) (err q)).2) qs acc ≠
        RainMainResult.fatalStop := by
    intro qs
    induction qs with
    | nil =>
      intro acc
      by_cases hacc : acc.isEmpty = true <;> simp [rainMainLoop, hacc]
    | cons q qs ih =>
      intro acc
      rcases hf : (fetch_paginated_data (server q) (err q)).2 with rs | _ | _
      · simpa only [rainMainLoop, hf] using ih (acc ++ rs)
      · exact absurd hf
          (rainFetchGo_no_fatal (server q) (err q) ((server q).length + 1) 0 [])
      · simp [rainMainLoop, hf]
  exact hloop queries []

/-- C10: contrary to the claim, an HTTP 403 during the multi-filter
rainfall run neither aborts the run nor suppresses the output file.  The
fatal signal is dead code (see rainRetry), so the failing query just
returns its accumulated records as a partial result after the retries,
the loop over filter combinations continues, and the csv is written
whenever any records were gathered.  At the failing input (the first
query returns one record, every request of the second is answered 403)
the run still writes the file with the first record; and in general no
run ever stops with the fatal signal. -/
theorem C10_403_run_still_writes :
    rain_main [0, 1] (fun q : Nat => if q = 0 then [7] else [5])
        (fun q _ _ => if q = 0 then none else some ErrKind.forbidden) =
      RainMainResult.wrote [7] ∧
    (∀ (α Q : Type) (queries : List Q) (server : Q → List α)
        (err : Q → Nat → Nat → Option ErrKind),
        (∃ rows, rain_main queries server err = RainMainResult.wrote rows) ∨
          rain_main queries server err = RainMainResult.noFile ∨
          rain_main queries server err = RainMainResult.raisedStop) := by
  refine ⟨by decide, ?_⟩
  intro α Q queries server err
  rcases hres : rain_main queries server err with _ | _ | rows | _
  · exact absurd hres (rain_main_no_fatalStop queries server err)
  · exact Or.inr (Or.inr rfl)
  · exact Or.inl ⟨rows, rfl⟩
  · exact Or.inr (Or.inl rfl)
